import Mathlib

/-!
Verification of the token-ledger and batched-generation orchestrator of the
storyboard application.  Definitions are shallow embeddings of the TypeScript
source files (`src/services/database.ts`, `src/services/geminiService.ts`,
`src/services/imageGenerationService.ts`, the Stripe webhook handler and the
payment-intent endpoint in `src/unnamed/part_002` / `part_003`, and the
`AuthContext` provider).  JavaScript numbers holding token amounts are
modelled as `Int`; nullable columns as `Option`.
-/

/-- A row of the `token_transactions` audit table, as inserted by
`logTokenTransaction` (`database.ts` / `imageGenerationService.ts`) and by the
webhook handlers. -/
structure TxRecord where
  tokens_delta : Int
  transaction_type : String
  balance_before : Int
  balance_after : Int
deriving Repr, DecidableEq

namespace Database

/-- Outcome of `consumeTokens` in `src/services/database.ts`: the stored
balance after the call, the `token_transactions` rows inserted, and the
returned value (`Except` models the thrown `Error('Insufficient tokens')`). -/
structure DebitOutcome where
  balance : Int
  txs : List TxRecord
  result : Except String Int
deriving Repr

/-- Embedding of `consumeTokens(userId, amount)` from
`src/services/database.ts` (lines 196-228): it reads `token_balance`,
computes `newBalance = token_balance - amount`, throws
`'Insufficient tokens'` when `newBalance < 0` (leaving the row untouched),
otherwise writes `newBalance`, inserts one `consumption` transaction via
`logTokenTransaction`, and returns `newBalance`. -/
def consumeTokens (balance : Int) (amount : Int) : DebitOutcome :=
  let newBalance := balance - amount
  if newBalance < 0 then
    ⟨balance, [], .error "Insufficient tokens"⟩
  else
    ⟨newBalance, [⟨-amount, "consumption", balance, newBalance⟩], .ok newBalance⟩

end Database

namespace AuthCtx

/-- Embedding of `consumeTokens(amount)` from the `AuthContext` provider
(`src/unnamed/part_003` lines 305-317): if the current user's `tokens` cover
`amount` it stores `tokens - amount` and returns `true`, otherwise it leaves
the state unchanged and returns `false`. -/
def consumeTokens (tokens : Int) (amount : Int) : Int × Bool :=
  if tokens ≥ amount then (tokens - amount, true) else (tokens, false)

/-- Result of the client-side `upgradeToPlan` (`src/unnamed/part_003`
lines 233-264). -/
structure UpgradeResult where
  finalTotal : Int
  actualAdded : Int
  grantTokens : Int
  maxCap : Option Int
deriving Repr, DecidableEq

/-- Embedding of `upgradeToPlan(tier)` from the `AuthContext` provider:
`grantTokens`/`maxCap` come from `STRIPE_PRICING` (`src/types.ts`), the new
total is `Math.min(currentTokens + grantTokens, maxCap)` (with `maxCap`
initialised to `Infinity`, modelled as `none`), and `actualAdded` is the
clipped difference. -/
def upgradeToPlan (tier : String) (currentTokens : Int) : UpgradeResult :=
  let grantTokens : Int :=
    if tier = "pro_standard" then 5000 else if tier = "pro_premium" then 30000 else 0
  let maxCap : Option Int :=
    if tier = "pro_standard" then some 10000
    else if tier = "pro_premium" then some 60000 else none
  let potentialTotal := currentTokens + grantTokens
  let finalTotal := match maxCap with
    | some cap => min potentialTotal cap
    | none => potentialTotal
  ⟨finalTotal, finalTotal - currentTokens, grantTokens, maxCap⟩

end AuthCtx

namespace Webhook

/-- The `PRICING` table of the webhook handler (`src/unnamed/part_002`):
tokens granted per plan, with `PRICING[plan] || 0` for unknown keys. -/
def pricingTokens (plan : String) : Int :=
  if plan = "pro_standard" then 5000
  else if plan = "pro_premium" then 30000
  else if plan = "token_topup" then 1000
  else 0

/-- The `MAX_TOKENS` resolution of `handlePaymentSucceeded`
(`src/unnamed/part_002` lines 122-131): the new plan tier wins, then the
user's stored tier, then the free-tier default of 100. -/
def maxBalanceFor (newPlanTier : Option String) (planTier : Option String) : Int :=
  if newPlanTier = some "pro_premium" then 60000
  else if newPlanTier = some "pro_standard" then 10000
  else if planTier = some "pro_premium" then 60000
  else if planTier = some "pro_standard" then 10000
  else 100

/-- JavaScript truthiness of an optional string (used for
`paymentIntent.metadata?.plan ? ... : ...`). -/
def truthyStr : Option String → Bool
  | some s => s ≠ ""
  | none => false

/-- The metadata of a Stripe payment intent as read by the webhook handler. -/
structure PaymentMeta where
  plan : Option String
  tokensAmount : Option Int
deriving Repr, DecidableEq

/-- The `users` columns read by the webhook handler. -/
structure WUser where
  token_balance : Option Int
  plan_tier : Option String
deriving Repr, DecidableEq

/-- Observable outcome of `handlePaymentSucceeded`. -/
structure CreditOutcome where
  balanceBefore : Int
  tokensToAdd : Int
  maxBalance : Int
  finalBalance : Int
  /-- `tokens_delta` written to the `token_transactions` row. -/
  recordedDelta : Int
  newPlanTier : Option String
deriving Repr, DecidableEq

/-- Embedding of `handlePaymentSucceeded(paymentIntent)` from
`src/unnamed/part_002` (lines 92-174): `tokensToAdd` is the plan grant or the
`tokensAmount` metadata (default `'1000'`), the stored balance becomes
`Math.min(balanceBefore + tokensToAdd, maxBalance)`, and the pending
`token_transactions` row is updated with `tokens_delta: tokensToAdd`. -/
def handlePaymentSucceeded (meta : PaymentMeta) (user : WUser) : CreditOutcome :=
  let type_ := if truthyStr meta.plan then "plan_upgrade" else "token_topup"
  let balanceBefore := user.token_balance.getD 0
  let tokensToAdd : Int :=
    if type_ = "plan_upgrade" then pricingTokens (meta.plan.getD "")
    else meta.tokensAmount.getD 1000
  let newPlanTier : Option String :=
    if type_ = "plan_upgrade" then meta.plan else none
  let maxBalance := maxBalanceFor newPlanTier user.plan_tier
  let balanceAfter := balanceBefore + tokensToAdd
  let finalBalance := min balanceAfter maxBalance
  ⟨balanceBefore, tokensToAdd, maxBalance, finalBalance, tokensToAdd, newPlanTier⟩

/-- The applied balance change of a credit (`finalBalance - balanceBefore`). -/
def CreditOutcome.appliedDelta (r : CreditOutcome) : Int :=
  r.finalBalance - r.balanceBefore

/-- Observable outcome of `handleRefund`. -/
structure RefundOutcome where
  tokensToRefund : Int
  balanceBefore : Int
  newBalance : Int
  tx : TxRecord
deriving Repr, DecidableEq

/-- Embedding of `handleRefund(charge)` from `src/unnamed/part_002`
(lines 200-251): it returns early (no balance change) when
`charge.amount_refunded` is falsy, otherwise credits
`Math.floor(refundAmount / 100000) * 1000` tokens on top of the stored
balance — with no ceiling applied — and inserts one `refund` transaction. -/
def handleRefund (amount_refunded : Nat) (token_balance : Option Int) :
    Option RefundOutcome :=
  if amount_refunded = 0 then none
  else
    let tokensToRefund : Int := (amount_refunded / 100000 : Nat) * 1000
    let before := token_balance.getD 0
    let newBalance := before + tokensToRefund
    some ⟨tokensToRefund, before, newBalance,
      ⟨tokensToRefund, "refund", before, newBalance⟩⟩

/-- The payload variants dispatched by the webhook entry point
(`src/unnamed/part_002` lines 50-69). -/
inductive EventPayload where
  | paymentIntentSucceeded : PaymentMeta → EventPayload
  | paymentIntentFailed : EventPayload
  | chargeRefunded : (amount_refunded : Nat) → (hasUserId : Bool) → EventPayload
  | other : EventPayload
deriving Repr, DecidableEq

/-- A signature-verified Stripe event, with its external event id. -/
structure StripeEvent where
  id : String
  payload : EventPayload
deriving Repr, DecidableEq

/-- The per-user state touched by the webhook handler: the `users` row and
the `stripe_events` rows inserted so far (by external event id). -/
structure WebhookState where
  user : WUser
  stripeEvents : List String
deriving Repr, DecidableEq

/-- The `users` update performed by `handlePaymentSucceeded` (lines 136-148):
`token_balance` becomes `finalBalance` and, for a plan upgrade, `plan_tier`
becomes the new plan. -/
def applyPaymentSucceeded (meta : PaymentMeta) (user : WUser) : WUser :=
  let r := handlePaymentSucceeded meta user
  if truthyStr meta.plan then ⟨some r.finalBalance, meta.plan⟩
  else ⟨some r.finalBalance, user.plan_tier⟩

/-- Embedding of the webhook entry point `handler` (`src/unnamed/part_002`
lines 22-90) for a signature-verified event: it inserts a `stripe_events` row
for the event id — the insert's outcome is not inspected, so a duplicate id
does not stop processing — and then dispatches on the event type.
`payment_intent.succeeded` credits the user, `payment_intent.payment_failed`
only annotates the pending transaction, `charge.refunded` credits the refund
when the charge carries a user id. -/
def handlerDeliver (st : WebhookState) (evt : StripeEvent) : WebhookState :=
  let events := st.stripeEvents ++ [evt.id]
  match evt.payload with
  | .paymentIntentSucceeded meta => ⟨applyPaymentSucceeded meta st.user, events⟩
  | .paymentIntentFailed => ⟨st.user, events⟩
  | .chargeRefunded amount_refunded hasUserId =>
    if hasUserId then
      match handleRefund amount_refunded st.user.token_balance with
      | some r => ⟨⟨some r.newBalance, st.user.plan_tier⟩, events⟩
      | none => ⟨st.user, events⟩
    else ⟨st.user, events⟩
  | .other => ⟨st.user, events⟩

end Webhook

namespace Conc

/-- A debit implementation expressed as the sequence of operations it issues
against the shared `token_balance`, with its continuation. -/
inductive DebitProg where
  | read : (Int → DebitProg) → DebitProg
  | write : Int → DebitProg → DebitProg
  | condDec : Int → (Except String Int → DebitProg) → DebitProg
  | done : Except String Int → DebitProg

/-- The storage interaction of `consumeTokens`
(`src/services/database.ts` lines 196-228): one read of `token_balance`, the
client-side non-negativity check on the value read, then an unconditional
write of the computed balance. -/
def consumeTokensProg (amount : Int) : DebitProg :=
  .read fun bal =>
    let newBalance := bal - amount
    if newBalance < 0 then .done (.error "Insufficient tokens")
    else .write newBalance (.done (.ok newBalance))

/-- Modelled from the spec: the `deduct_tokens` stored procedure invoked via
`supabase.rpc` by `deductTokensForImage` is not under `src/`; per the spec it
is "one atomic conditional-decrement operation" at the storage layer,
rejecting a decrement that would make the balance negative, in a single
step. -/
def deductTokensProg (amount : Int) : DebitProg :=
  .condDec amount .done

/-- One storage step of a debit program against the shared balance. -/
def step (bal : Int) : DebitProg → Int × DebitProg
  | .read k => (bal, k bal)
  | .write v k => (v, k)
  | .condDec a k =>
    if bal - a < 0 then (bal, k (.error "Insufficient tokens"))
    else (bal - a, k (.ok (bal - a)))
  | .done r => (bal, .done r)

/-- Interleaved execution of two debit programs: each schedule entry picks
which program performs its next storage operation. -/
def runSched (sched : List Bool) (bal : Int) (p q : DebitProg) :
    Int × DebitProg × DebitProg :=
  match sched with
  | [] => (bal, p, q)
  | b :: rest =>
    if b then
      let s := step bal p
      runSched rest s.1 s.2 q
    else
      let s := step bal q
      runSched rest s.1 p s.2

/-- Whether a debit program has terminated reporting a successful debit. -/
def succeeded : DebitProg → Bool
  | .done (.ok _) => true
  | _ => false

end Conc

namespace ImageGen

/-- The `TokenDeductionResult` returned by `deductTokensForImage`
(`src/services/imageGenerationService.ts`). -/
structure TokenDeductionResult where
  success : Bool
  balanceBefore : Int
  balanceAfter : Int
  errMsg : Option String
deriving Repr

/-- Embedding of `logTokenTransaction` from
`src/services/imageGenerationService.ts` (lines 121-145): it inserts one
`image_generation` row with `tokens_delta: -costPerImage`; when the insert
fails the error is only written to the console and the function still returns
normally.  `insertOk` says whether the storage insert succeeded; the value is
the list of rows actually created. -/
def logTokenTransaction (insertOk : Bool) (costPerImage balanceBefore balanceAfter : Int) :
    List TxRecord :=
  if insertOk then [⟨-costPerImage, "image_generation", balanceBefore, balanceAfter⟩]
  else []

/-- Embedding of `deductTokensForImage` from
`src/services/imageGenerationService.ts` (lines 63-119).  `rpc` is the
outcome of the `supabase.rpc('deduct_tokens', ...)` call: an error, or the
rows it returned (each carrying `balance_before`/`balance_after` of the
committed storage-level debit).  On a non-empty row set the function logs the
transaction (whose own failure is swallowed) and reports success with the
returned balances. -/
def deductTokensForImage (rpc : Except String (List (Int × Int)))
    (insertOk : Bool) (costPerImage : Int) : TokenDeductionResult × List TxRecord :=
  match rpc with
  | .error msg => (⟨false, 0, 0, some msg⟩, [])
  | .ok [] => (⟨false, 0, 0, some "トークン消費の結果が返されませんでした"⟩, [])
  | .ok ((b, a) :: _) => (⟨true, b, a, none⟩, logTokenTransaction insertOk costPerImage b a)

end ImageGen

namespace Gemini

/-- A JavaScript value that may appear in an error's status fields: a number
(HTTP status) or a string (such as `'UNAVAILABLE'`). -/
inductive JsVal where
  | num : Int → JsVal
  | str : String → JsVal
deriving Repr, DecidableEq

/-- JavaScript truthiness of an optional status value (`0`, `''` and
`undefined` are falsy). -/
def truthyVal : Option JsVal → Bool
  | some (.num n) => n ≠ 0
  | some (.str s) => s ≠ ""
  | none => false

/-- The JavaScript `||` operator on optional status values. -/
def jsOr (a b : Option JsVal) : Option JsVal := if truthyVal a then a else b

/-- An error thrown by the generation API, with the fields inspected by
`callWithRetry` (`src/services/geminiService.ts` lines 10-33).  `message` is
the lower-cased text the wrapper examines
(`(error.message || JSON.stringify(error)).toLowerCase()` is applied by
`retryMsg` below). -/
structure GenError where
  status : Option JsVal
  code : Option JsVal
  responseStatus : Option JsVal
  errorCode : Option JsVal
  message : String
deriving Repr, DecidableEq

/-- JavaScript `s.toLowerCase()` (character-wise lowering; the texts the
code lowers are ASCII). -/
def jsToLower (s : String) : String := ⟨s.data.map Char.toLower⟩

/-- Whether the first list is a prefix of the second. -/
def subAt : List Char → List Char → Bool
  | [], _ => true
  | _ :: _, [] => false
  | a :: s, b :: t => a = b && subAt s t

/-- Whether `sub` occurs contiguously in the second list. -/
def hasSub (sub : List Char) : List Char → Bool
  | [] => subAt sub []
  | a :: t => subAt sub (a :: t) || hasSub sub t

/-- JavaScript `s.includes(t)`: `t` occurs contiguously in `s`. -/
def strIncludes (s t : String) : Bool := hasSub t.data s.data

/-- The `statusCode` chain of `callWithRetry`:
`error.status || error.code || error.response?.status || error.error?.code`. -/
def statusCode (e : GenError) : Option JsVal :=
  jsOr e.status (jsOr e.code (jsOr e.responseStatus e.errorCode))

/-- The lower-cased message examined by `callWithRetry`. -/
def retryMsg (e : GenError) : String := jsToLower e.message

/-- The `isRetryable` test of `callWithRetry`: HTTP 503/429, the string code
`'UNAVAILABLE'`, or an `'overloaded'`/`'unavailable'`/`'503'` substring in
the lower-cased message. -/
def isRetryable (e : GenError) : Bool :=
  statusCode e = some (.num 503) ||
  statusCode e = some (.num 429) ||
  statusCode e = some (.str "UNAVAILABLE") ||
  strIncludes (retryMsg e) "overloaded" ||
  strIncludes (retryMsg e) "unavailable" ||
  strIncludes (retryMsg e) "503"

/-- Trace of one `callWithRetry` run: the final outcome, how many times the
wrapped operation was invoked, and the backoff delays awaited (ms). -/
structure RetryTrace (α : Type) where
  result : Except GenError α
  calls : Nat
  delays : List Nat
deriving Repr

/-- Embedding of `callWithRetry(fn, retries = 5, delay = 3000)` from
`src/services/geminiService.ts` (lines 10-33).  `fn i` is the outcome of the
`i`-th invocation of the wrapped operation (0-based).  On an error that is
retryable while retries remain, the wrapper waits `delay`, then recurses with
`retries - 1` and `delay * 2`; otherwise the error is rethrown unchanged. -/
def callWithRetry {α : Type} (fn : Nat → Except GenError α) :
    (retries : Nat) → (delay : Nat) → (idx : Nat) → RetryTrace α
  | 0, _, idx =>
    match fn idx with
    | .ok a => ⟨.ok a, 1, []⟩
    | .error e => ⟨.error e, 1, []⟩
  | r + 1, delay, idx =>
    match fn idx with
    | .ok a => ⟨.ok a, 1, []⟩
    | .error e =>
      if isRetryable e then
        let t := callWithRetry fn r (delay * 2) (idx + 1)
        ⟨t.result, t.calls + 1, delay :: t.delays⟩
      else ⟨.error e, 1, []⟩

/-- A character profile (`Character` in `src/types.ts`), restricted to the
fields the storyboard generator reads. -/
structure Character where
  id : String
  name : String
  visualDescription : String
deriving Repr, DecidableEq

/-- One scene object as parsed from a batch response of the generation
service (the `scenes` array items of the structured-output schema in
`generateStoryboardScenes`).  `echoedId` is any id field the service may echo
back; the mapper never reads it. -/
structure RawScene where
  description : String
  subjectAndComposition : String
  setting : String
  action : String
  emotion : String
  charactersInScene : List String
  originalScriptExcerpt : String
  echoedId : Option Int
deriving Repr, DecidableEq

/-- A storyboard scene as returned to the caller (`Scene` in
`src/types.ts`, the fields built at `geminiService.ts` lines 220-229). -/
structure Scene where
  id : Nat
  description : String
  subjectAndComposition : String
  setting : String
  action : String
  emotion : String
  charactersInScene : List String
  originalScriptExcerpt : String
deriving Repr, DecidableEq

/-- The free-text character-name resolution of `generateStoryboardScenes`
(line 215-218): each returned name is matched case-insensitively against the
known characters by substring containment in either direction; unresolved
names are dropped. -/
def mapCharIds (characters : List Character) (names : List String) : List String :=
  names.filterMap fun name =>
    (characters.find? fun c =>
        strIncludes (jsToLower name) (jsToLower c.name) ||
        strIncludes (jsToLower c.name) (jsToLower name)).map
      (fun c => c.id)

/-- The per-batch response mapping of `generateStoryboardScenes`
(lines 214-230): every returned unit's id is overwritten with
`startId + index`, its character names resolved, other fields copied. -/
def mapBatchScenes (characters : List Character) (startId : Nat)
    (rawScenes : List RawScene) : List Scene :=
  rawScenes.mapIdx fun index s =>
    ⟨startId + index, s.description, s.subjectAndComposition, s.setting,
      s.action, s.emotion, mapCharIds characters s.charactersInScene,
      s.originalScriptExcerpt⟩

/-- The `charSummary` string of `generateStoryboardScenes` (line 104). -/
def charSummary (characters : List Character) : String :=
  String.intercalate "\n" (characters.map fun c => c.name ++ ": " ++ c.visualDescription)

/-- `BATCH_SIZE` of `generateStoryboardScenes` (line 105). -/
def BATCH_SIZE : Nat := 20

/-- `Math.round(a / b)` for non-negative exact arguments (used for the
progress percentages at lines 141-142). -/
def jsRound (a b : Nat) : Nat := (2 * a + b) / (2 * b)

/-- The continuity context of `generateStoryboardScenes` (lines 145-154):
empty for the first batch, otherwise a preamble quoting the last accumulated
scene's id and description and instructing the service to continue from it
without skipping the story. -/
def contextPrompt (startId : Nat) (allScenes : List Scene) : String :=
  match allScenes.getLast? with
  | none => ""
  | some lastScene =>
    "\n      【直前のシーン " ++ ("(#" ++ toString lastScene.id ++ ")") ++
    " の内容】\n      " ++ lastScene.description ++ "\n      \n      " ++
    ("指示: シーン #" ++ toString startId) ++
    " は、上記の続きから自然に繋がるように描写してください。" ++
    "物語を飛ばさないでください。" ++ "\n      "

/-- The per-batch prompt of `generateStoryboardScenes` (lines 156-192), with
the interpolated values spliced into the fixed Japanese template. -/
def buildPrompt (scenario charSummaryStr : String)
    (totalSceneCount startId endId currentBatchSize startPercent endPercent : Nat)
    (ctx : String) : String :=
  "以下のシナリオと登場人物に基づいて、YouTube動画用の詳細な絵コンテを作成してください。\n    \n    【全体計画】\n    このシナリオ全体を「全 " ++
  toString totalSceneCount ++
  " カット」で構成します。\n    均等なペース配分で、シナリオの最初から最後までを網羅する必要があります。\n    \n    【今回のタスク】\n    作成範囲: シーン #" ++
  toString startId ++ " から #" ++ toString endId ++ " まで（計 " ++
  toString currentBatchSize ++
  " カット）。\n    \n    【進行度目安】\n    これは物語全体の「" ++
  toString startPercent ++ "% 地点から " ++ toString endPercent ++
  "% 地点」に相当するパートです。\n    シナリオの該当箇所を特定し、その範囲を " ++
  toString currentBatchSize ++
  " カットで均等に分割してください。\n    \n    【最重要・必須指示】\n    1. シーン #1 (最初のバッチ) は、例外なく必ず「シナリオの冒頭（最初の1行目）」の描写から始めてください。イントロダクションを省略してはいけません。\n    2. 原則として、各シーンには「必ず1名以上のキャラクター」を登場させてください。誰もいないシーンは作らないでください（風景描写のみの場合を除く）。\n    3. 「originalScriptExcerpt」には、そのシーンの元となったシナリオ内の文章を必ず含めてください。\n    \n    【トーン＆マナー指示】\n    1. これはドラマの撮影です。暴力的な描写が含まれる場合は「ドラマの演出」として描写し、過度にグロテスクにならないようにしてください。\n    2. 「嘲笑」や「見下す」といったネガティブな感情表現は、「高笑い」や「不敵な笑み」と表現してください。\n    3. ペース配分を厳密に守り、物語が早く進みすぎたり、停滞したりしないようにしてください。\n    4. 1つの画像には1つのシーン（ワンシーン）のみを描写してください。コマ割り（コラージュ）画像は作成しません。\n\n    " ++
  ctx ++
  "\n    \n    詳細要件：\n    1. ビジュアルのトーンは一貫性を持たせてください（日本人、リアル、映画的）。\n    2. 各項目の内容は、画像生成AIへの指示として使えるよう具体的かつ詳細に記述してください。\n    3. 出力はすべて日本語で行ってください。\n    \n    Characters:\n    " ++
  charSummaryStr ++ "\n\n    Scenario:\n    " ++ scenario ++ "\n    "

/-- The user-facing error thrown when a batch response cannot be parsed
(line 239). -/
def parseFailureMsg : String := "AIからの応答データの解析に失敗しました。再試行してください。"

/-- The prompt sent for the batch whose loop counter is `i` (so
`startId = i + 1`, `endId = min(i + BATCH_SIZE, totalSceneCount)`), with the
accumulated scenes supplying the continuity context. -/
def promptFor (scenario charSummaryStr : String) (totalSceneCount i : Nat)
    (allScenes : List Scene) : String :=
  buildPrompt scenario charSummaryStr totalSceneCount (i + 1)
    (min (i + BATCH_SIZE) totalSceneCount)
    (min (i + BATCH_SIZE) totalSceneCount - (i + 1) + 1)
    (jsRound (i * 100) totalSceneCount)
    (jsRound (min (i + BATCH_SIZE) totalSceneCount * 100) totalSceneCount)
    (contextPrompt (i + 1) allScenes)

/-- Trace of one `generateStoryboardScenes` run: the prompts sent to the
generation service, one per processed batch in order, and the overall
outcome (`Except` models the thrown error). -/
structure RunTrace where
  prompts : List String
  result : Except String (List Scene)
deriving Repr

/-- The batch loop of `generateStoryboardScenes` (lines 135-241).  `oracle k
prompt` is the parsed `scenes` array of the service's response to the `k`-th
batch request (`none` when the response fails to parse as the expected
shape); `i` is the loop counter, `allScenes` and `prompts` the accumulators. -/
def goGen (oracle : Nat → String → Option (List RawScene))
    (scenario charSummaryStr : String) (characters : List Character)
    (totalSceneCount : Nat) (k i : Nat) (allScenes : List Scene)
    (prompts : List String) : RunTrace :=
  if _h : i < totalSceneCount then
    let prompt := promptFor scenario charSummaryStr totalSceneCount i allScenes
    match oracle k prompt with
    | none => ⟨prompts ++ [prompt], .error parseFailureMsg⟩
    | some rawScenes =>
      goGen oracle scenario charSummaryStr characters totalSceneCount (k + 1)
        (i + BATCH_SIZE) (allScenes ++ mapBatchScenes characters (i + 1) rawScenes)
        (prompts ++ [prompt])
  else ⟨prompts, .ok allScenes⟩
termination_by totalSceneCount - i
decreasing_by simp only [BATCH_SIZE]; omega

/-- Embedding of `generateStoryboardScenes(scenario, characters,
totalSceneCount, onProgress)` from `src/services/geminiService.ts`
(lines 98-244), instrumented to record the prompt of each batch request. -/
def generateStoryboardScenes (oracle : Nat → String → Option (List RawScene))
    (scenario : String) (characters : List Character) (totalSceneCount : Nat) :
    RunTrace :=
  goGen oracle scenario (charSummary characters) characters totalSceneCount 0 0 [] []

/-- The `[startId, endId]` ranges produced by the batch loop of
`generateStoryboardScenes` for a job of `totalSceneCount` units, starting
from loop counter `i`. -/
def batchRanges (totalSceneCount : Nat) (i : Nat) : List (Nat × Nat) :=
  if _h : i < totalSceneCount then
    (i + 1, min (i + BATCH_SIZE) totalSceneCount) ::
      batchRanges totalSceneCount (i + BATCH_SIZE)
  else []
termination_by totalSceneCount - i
decreasing_by simp only [BATCH_SIZE]; omega

end Gemini

/-! ## Theorems -/

/-- The `MAX_TOKENS` ceiling resolved by the webhook handler is positive. -/
theorem maxBalanceFor_pos (a b : Option String) : 0 < Webhook.maxBalanceFor a b := by
  unfold Webhook.maxBalanceFor
  repeat' split
  all_goals omega

/-- Claim C1: a debit of `cost` from a balance with `balance ≥ cost` succeeds
and leaves the non-negative balance `balance - cost`, while an attempted
debit with `cost > balance` fails (`'Insufficient tokens'`) and leaves the
balance unchanged — for the storage-backed `consumeTokens` of `database.ts`
and for the client-side `consumeTokens` of the `AuthContext`; in particular,
from balance 12, three sequential debits of cost 5 yield 7, then 2, and the
third attempt fails with the balance staying 2. -/
theorem debit_postcondition :
    (∀ balance cost : Int, cost ≤ balance →
      (Database.consumeTokens balance cost).balance = balance - cost ∧
      (Database.consumeTokens balance cost).result = .ok (balance - cost) ∧
      0 ≤ (Database.consumeTokens balance cost).balance) ∧
    (∀ balance cost : Int, balance < cost →
      (Database.consumeTokens balance cost).balance = balance ∧
      (Database.consumeTokens balance cost).result = .error "Insufficient tokens") ∧
    (∀ tokens amount : Int, amount ≤ tokens →
      AuthCtx.consumeTokens tokens amount = (tokens - amount, true)) ∧
    (∀ tokens amount : Int, tokens < amount →
      AuthCtx.consumeTokens tokens amount = (tokens, false)) ∧
    (Database.consumeTokens 12 5).balance = 7 ∧
    (Database.consumeTokens 7 5).balance = 2 ∧
    (Database.consumeTokens 2 5).result = .error "Insufficient tokens" ∧
    (Database.consumeTokens 2 5).balance = 2 := by
  refine ⟨?_, ?_, ?_, ?_, by decide, by decide, rfl, by decide⟩
  · intro balance cost h
    have h' : ¬(balance - cost < 0) := by omega
    simp [Database.consumeTokens, h']
    omega
  · intro balance cost h
    have h' : balance - cost < 0 := by omega
    simp [Database.consumeTokens, h']
  · intro tokens amount h
    simp [AuthCtx.consumeTokens, h]
  · intro tokens amount h
    have h' : ¬(amount ≤ tokens) := by omega
    simp [AuthCtx.consumeTokens, h']

/-- Witness for `debit_postcondition` at balance 12 / cost 5 (success) and
balance 2 / cost 5 (failure). -/
theorem debit_postcondition_witness :
    ((Database.consumeTokens 12 5).balance = 12 - 5 ∧
      (Database.consumeTokens 12 5).result = .ok (12 - 5) ∧
      0 ≤ (Database.consumeTokens 12 5).balance) ∧
    ((Database.consumeTokens 2 5).balance = 2 ∧
      (Database.consumeTokens 2 5).result = .error "Insufficient tokens") ∧
    AuthCtx.consumeTokens 12 5 = (12 - 5, true) ∧
    AuthCtx.consumeTokens 2 5 = (2, false) :=
  ⟨debit_postcondition.1 12 5 (by decide),
    debit_postcondition.2.1 2 5 (by decide),
    debit_postcondition.2.2.1 12 5 (by decide),
    debit_postcondition.2.2.2.1 2 5 (by decide)⟩

/-- Counterexample to claim C2 as stated: for a `pro_standard` user at
balance 9500 topping up a nominal 1000 tokens, the applied delta is clipped
to 500 but the ledger row records the nominal 1000; and for a free-tier user
whose balance 1100 already exceeds the ceiling 100, the applied delta is
-1000, violating `appliedDelta ≥ 0`. -/
theorem credit_ledger_nominal_counterexample :
    (Webhook.handlePaymentSucceeded ⟨none, some 1000⟩
        ⟨some 9500, some "pro_standard"⟩).recordedDelta = 1000 ∧
    (Webhook.handlePaymentSucceeded ⟨none, some 1000⟩
        ⟨some 9500, some "pro_standard"⟩).appliedDelta = 500 ∧
    (1000 : Int) ≠ 500 ∧
    (Webhook.handlePaymentSucceeded ⟨none, some 1000⟩
        ⟨some 1100, none⟩).appliedDelta = -1000 ∧
    ¬(0 ≤ (-1000 : Int)) := by
  refine ⟨by decide, by decide, by decide, by decide, by decide⟩

/-- Claim C2 (amended): for every credit through the webhook's
`handlePaymentSucceeded`, the new balance is
`min(balanceBefore + nominal, ceiling)`, hence the applied delta equals
`min(nominal, ceiling - balanceBefore)` and is non-negative whenever the
nominal amount is non-negative and the prior balance does not already exceed
the ceiling; the ledger row, however, records the nominal amount, not the
clipped applied delta.  The client-side `upgradeToPlan` grant applies the
same `min` clipping. -/
theorem credit_clipping :
    (∀ meta user r, r = Webhook.handlePaymentSucceeded meta user →
      r.finalBalance = min (r.balanceBefore + r.tokensToAdd) r.maxBalance ∧
      r.appliedDelta = min r.tokensToAdd (r.maxBalance - r.balanceBefore) ∧
      (0 ≤ r.tokensToAdd → r.balanceBefore ≤ r.maxBalance → 0 ≤ r.appliedDelta) ∧
      r.recordedDelta = r.tokensToAdd) ∧
    (∀ current : Int,
      (AuthCtx.upgradeToPlan "pro_standard" current).finalTotal =
        min (current + 5000) 10000 ∧
      (AuthCtx.upgradeToPlan "pro_premium" current).finalTotal =
        min (current + 30000) 60000 ∧
      (AuthCtx.upgradeToPlan "pro_standard" current).actualAdded =
        min 5000 (10000 - current) ∧
      (AuthCtx.upgradeToPlan "pro_premium" current).actualAdded =
        min 30000 (60000 - current)) := by
  constructor
  · intro meta user r hr
    have hF : r.finalBalance = min (r.balanceBefore + r.tokensToAdd) r.maxBalance := by
      subst hr; rfl
    have hR : r.recordedDelta = r.tokensToAdd := by subst hr; rfl
    refine ⟨hF, ?_, ?_, hR⟩
    · simp only [Webhook.CreditOutcome.appliedDelta, hF]
      omega
    · intro ht h
      simp only [Webhook.CreditOutcome.appliedDelta, hF]
      omega
  · intro current
    have e1 : AuthCtx.upgradeToPlan "pro_standard" current =
        ⟨min (current + 5000) 10000, min (current + 5000) 10000 - current,
          5000, some 10000⟩ := by
      simp [AuthCtx.upgradeToPlan]
    have e2 : AuthCtx.upgradeToPlan "pro_premium" current =
        ⟨min (current + 30000) 60000, min (current + 30000) 60000 - current,
          30000, some 60000⟩ := by
      simp [AuthCtx.upgradeToPlan]
    rw [e1, e2]
    refine ⟨rfl, rfl, by simp only; omega, by simp only; omega⟩

/-- Witness for `credit_clipping`: the `pro_standard` top-up at balance 9500
with nominal 1000. -/
theorem credit_clipping_witness :
    (Webhook.handlePaymentSucceeded ⟨none, some 1000⟩
        ⟨some 9500, some "pro_standard"⟩).finalBalance =
      min ((Webhook.handlePaymentSucceeded ⟨none, some 1000⟩
          ⟨some 9500, some "pro_standard"⟩).balanceBefore +
        (Webhook.handlePaymentSucceeded ⟨none, some 1000⟩
          ⟨some 9500, some "pro_standard"⟩).tokensToAdd)
        (Webhook.handlePaymentSucceeded ⟨none, some 1000⟩
          ⟨some 9500, some "pro_standard"⟩).maxBalance ∧
    (0 ≤ (Webhook.handlePaymentSucceeded ⟨none, some 1000⟩
        ⟨some 9500, some "pro_standard"⟩).appliedDelta) :=
  ⟨((credit_clipping.1 ⟨none, some 1000⟩ ⟨some 9500, some "pro_standard"⟩ _ rfl)).1,
    ((credit_clipping.1 ⟨none, some 1000⟩ ⟨some 9500, some "pro_standard"⟩ _ rfl)).2.2.1
      (by decide) (by decide)⟩

/-- Claim C3 (code bug): the webhook handler keeps a `stripe_events` table
keyed by the external event id yet never consults it before processing, and
ignores the insert's outcome; delivering the same `payment_intent.succeeded`
event (id `evt_1`, 1000-token top-up) twice to a `pro_standard` user starting
at balance 0 credits the user twice — balance 2000, with the duplicate id
recorded twice — where the claimed idempotence requires a single credit
(balance 1000). -/
theorem webhook_replay_double_credit :
    (Webhook.handlerDeliver
        (Webhook.handlerDeliver ⟨⟨some 0, some "pro_standard"⟩, []⟩
          ⟨"evt_1", .paymentIntentSucceeded ⟨none, some 1000⟩⟩)
        ⟨"evt_1", .paymentIntentSucceeded ⟨none, some 1000⟩⟩).user.token_balance =
      some 2000 ∧
    (Webhook.handlerDeliver ⟨⟨some 0, some "pro_standard"⟩, []⟩
        ⟨"evt_1", .paymentIntentSucceeded ⟨none, some 1000⟩⟩).user.token_balance =
      some 1000 ∧
    (Webhook.handlerDeliver
        (Webhook.handlerDeliver ⟨⟨some 0, some "pro_standard"⟩, []⟩
          ⟨"evt_1", .paymentIntentSucceeded ⟨none, some 1000⟩⟩)
        ⟨"evt_1", .paymentIntentSucceeded ⟨none, some 1000⟩⟩).stripeEvents =
      ["evt_1", "evt_1"] ∧
    some (2000 : Int) ≠ some (1000 : Int) := by
  refine ⟨by decide, by decide, by decide, by decide⟩

/-- Counterexample to claim C6 as stated: a refund of 200000 (provider
units) to a `pro_standard` user at balance 9500 credits 2000 tokens with no
ceiling applied, leaving balance 11500 above the 10000 plan ceiling. -/
theorem refund_exceeds_ceiling_counterexample :
    Webhook.handleRefund 200000 (some 9500) =
      some ⟨2000, 9500, 11500, ⟨2000, "refund", 9500, 11500⟩⟩ ∧
    Webhook.maxBalanceFor none (some "pro_standard") = 10000 ∧
    ¬((11500 : Int) ≤ 10000) := by
  refine ⟨by decide, by decide, by decide⟩

/-- Claim C6 (amended): after a `payment_intent.succeeded` credit or a plan
upgrade the balance is never negative and never exceeds the resolved ceiling
(excess dropped); a `charge.refunded` credit keeps the balance non-negative
but is applied with no ceiling, so it may leave the balance above the plan
ceiling. -/
theorem balance_bounds_after_credit :
    (∀ meta user r, r = Webhook.handlePaymentSucceeded meta user →
      r.finalBalance ≤ r.maxBalance ∧
      (0 ≤ r.balanceBefore → 0 ≤ r.tokensToAdd → 0 ≤ r.finalBalance)) ∧
    (∀ current : Int, 0 ≤ current →
      (0 ≤ (AuthCtx.upgradeToPlan "pro_standard" current).finalTotal ∧
        (AuthCtx.upgradeToPlan "pro_standard" current).finalTotal ≤ 10000) ∧
      (0 ≤ (AuthCtx.upgradeToPlan "pro_premium" current).finalTotal ∧
        (AuthCtx.upgradeToPlan "pro_premium" current).finalTotal ≤ 60000)) ∧
    (∀ (amt : Nat) (bal : Option Int) (r : Webhook.RefundOutcome),
      Webhook.handleRefund amt bal = some r →
      r.newBalance = r.balanceBefore + r.tokensToRefund ∧
      0 ≤ r.tokensToRefund ∧
      (0 ≤ r.balanceBefore → 0 ≤ r.newBalance)) := by
  refine ⟨?_, ?_, ?_⟩
  · intro meta user r hr
    have hF : r.finalBalance = min (r.balanceBefore + r.tokensToAdd) r.maxBalance := by
      subst hr; rfl
    have hM : 0 < r.maxBalance := by
      subst hr
      exact maxBalanceFor_pos _ _
    constructor
    · rw [hF]; omega
    · intro h1 h2
      rw [hF]; omega
  · intro current h
    have e1 : AuthCtx.upgradeToPlan "pro_standard" current =
        ⟨min (current + 5000) 10000, min (current + 5000) 10000 - current,
          5000, some 10000⟩ := by
      simp [AuthCtx.upgradeToPlan]
    have e2 : AuthCtx.upgradeToPlan "pro_premium" current =
        ⟨min (current + 30000) 60000, min (current + 30000) 60000 - current,
          30000, some 60000⟩ := by
      simp [AuthCtx.upgradeToPlan]
    rw [e1, e2]
    refine ⟨⟨by simp only; omega, by simp only; omega⟩,
      by simp only; omega, by simp only; omega⟩
  · intro amt bal r hr
    unfold Webhook.handleRefund at hr
    split at hr
    · exact absurd hr (by simp)
    · rw [Option.some_inj] at hr
      subst hr
      refine ⟨rfl, by positivity, ?_⟩
      intro h
      simp only at h ⊢
      omega

/-- `batchRanges` below the total produces the head range and recurses. -/
theorem batchRanges_cons {T i : Nat} (h : i < T) :
    Gemini.batchRanges T i =
      (i + 1, min (i + Gemini.BATCH_SIZE) T) ::
        Gemini.batchRanges T (i + Gemini.BATCH_SIZE) := by
  rw [Gemini.batchRanges]
  rw [dif_pos h]

/-- `batchRanges` at or beyond the total is empty. -/
theorem batchRanges_stop {T i : Nat} (h : T ≤ i) : Gemini.batchRanges T i = [] := by
  rw [Gemini.batchRanges]
  rw [dif_neg (by omega)]

/-- The loop of `generateStoryboardScenes` returns the accumulators once the
counter reaches the total. -/
theorem goGen_stop (oracle : Nat → String → Option (List Gemini.RawScene))
    (sc cs : String) (chars : List Gemini.Character) (T k i : Nat)
    (acc : List Gemini.Scene) (ps : List String) (h : T ≤ i) :
    Gemini.goGen oracle sc cs chars T k i acc ps = ⟨ps, .ok acc⟩ := by
  rw [Gemini.goGen]
  rw [dif_neg (by omega)]

/-- The loop of `generateStoryboardScenes` aborts with the parse-failure
error when the current batch's response does not parse. -/
theorem goGen_fail (oracle : Nat → String → Option (List Gemini.RawScene))
    (sc cs : String) (chars : List Gemini.Character) (T k i : Nat)
    (acc : List Gemini.Scene) (ps : List String) (h : i < T)
    (ho : oracle k (Gemini.promptFor sc cs T i acc) = none) :
    Gemini.goGen oracle sc cs chars T k i acc ps =
      ⟨ps ++ [Gemini.promptFor sc cs T i acc], .error Gemini.parseFailureMsg⟩ := by
  rw [Gemini.goGen]
  rw [dif_pos h]
  simp only [ho]

/-- The loop of `generateStoryboardScenes` appends the mapped batch and
recurses when the current batch's response parses. -/
theorem goGen_step (oracle : Nat → String → Option (List Gemini.RawScene))
    (sc cs : String) (chars : List Gemini.Character) (T k i : Nat)
    (acc : List Gemini.Scene) (ps : List String) (rs : List Gemini.RawScene)
    (h : i < T) (ho : oracle k (Gemini.promptFor sc cs T i acc) = some rs) :
    Gemini.goGen oracle sc cs chars T k i acc ps =
      Gemini.goGen oracle sc cs chars T (k + 1) (i + Gemini.BATCH_SIZE)
        (acc ++ Gemini.mapBatchScenes chars (i + 1) rs)
        (ps ++ [Gemini.promptFor sc cs T i acc]) := by
  rw [Gemini.goGen]
  rw [dif_pos h]
  simp only [ho]

/-- The ranges of the batch loop flatten to the contiguous id interval
starting right after the loop counter. -/
theorem batchRanges_flatten (T : Nat) :
    ∀ n i, T - i ≤ n →
      (Gemini.batchRanges T i).flatMap (fun r => List.range' r.1 (r.2 + 1 - r.1)) =
        List.range' (i + 1) (T - i) := by
  intro n
  induction n with
  | zero =>
    intro i h
    rw [batchRanges_stop (by omega)]
    have : T - i = 0 := by omega
    rw [this]
    rfl
  | succ n ih =>
    intro i h
    by_cases hi : i < T
    · rw [batchRanges_cons hi, List.flatMap_cons,
        ih (i + Gemini.BATCH_SIZE) (by simp only [Gemini.BATCH_SIZE]; omega)]
      show List.range' (i + 1) (min (i + Gemini.BATCH_SIZE) T + 1 - (i + 1)) ++
          List.range' (i + Gemini.BATCH_SIZE + 1) (T - (i + Gemini.BATCH_SIZE)) =
        List.range' (i + 1) (T - i)
      have hB : Gemini.BATCH_SIZE = 20 := rfl
      rcases le_or_lt (i + Gemini.BATCH_SIZE) T with hle | hlt
      · rw [min_eq_left hle]
        rw [show i + Gemini.BATCH_SIZE + 1 - (i + 1) = Gemini.BATCH_SIZE by omega,
          show i + Gemini.BATCH_SIZE + 1 = i + 1 + 1 * Gemini.BATCH_SIZE by omega,
          List.range'_append]
        congr 1
        omega
      · rw [min_eq_right (by omega), show T - (i + Gemini.BATCH_SIZE) = 0 by omega,
          List.range'_zero, List.append_nil]
        congr 1
        omega
    · rw [batchRanges_stop (by omega)]
      rw [show T - i = 0 by omega]
      rfl

/-- Every range of the batch loop is well-formed and at most `BATCH_SIZE`
wide. -/
theorem batchRanges_size (T : Nat) :
    ∀ n i, T - i ≤ n → ∀ r ∈ Gemini.batchRanges T i,
      r.1 ≤ r.2 ∧ r.2 + 1 - r.1 ≤ Gemini.BATCH_SIZE := by
  intro n
  induction n with
  | zero =>
    intro i h r hr
    rw [batchRanges_stop (by omega)] at hr
    simp at hr
  | succ n ih =>
    intro i h r hr
    by_cases hi : i < T
    · rw [batchRanges_cons hi] at hr
      rcases List.mem_cons.mp hr with he | ht
      · subst he
        have hB : Gemini.BATCH_SIZE = 20 := rfl
        constructor
        · simp only
          omega
        · simp only
          omega
      · exact ih (i + Gemini.BATCH_SIZE) (by simp only [Gemini.BATCH_SIZE]; omega) r ht
    · rw [batchRanges_stop (by omega)] at hr
      simp at hr

/-- The response mapper overwrites every unit's id with
`startId + positionInBatch`, whatever the service echoed. -/
theorem mapBatchScenes_ids (chars : List Gemini.Character) (s : Nat)
    (rs : List Gemini.RawScene) :
    (Gemini.mapBatchScenes chars s rs).map (fun x => x.id) =
      List.range' s rs.length := by
  unfold Gemini.mapBatchScenes
  rw [List.mapIdx_eq_enum_map, List.map_map]
  have hlen : rs.length = rs.enum.length := (List.enum_length).symm
  rw [hlen]
  trans List.map ((fun n => s + n) ∘ Prod.fst) rs.enum
  · exact List.map_congr_left fun p _ => rfl
  · rw [← List.map_map, List.enum_map_fst, ← List.range'_eq_map_range,
      List.enum_length]

/-- If some batch of the loop fails to parse while all earlier batches
parse, the whole run errors with the parse-failure message. -/
theorem goGen_error_aux (oracle : Nat → String → Option (List Gemini.RawScene))
    (sc cs : String) (chars : List Gemini.Character) (T : Nat) :
    ∀ (j k i : Nat) (acc : List Gemini.Scene) (ps : List String),
      j < (Gemini.batchRanges T i).length →
      (∀ p, oracle (k + j) p = none) →
      (∀ d, d < j → ∀ p, ∃ rs, oracle (k + d) p = some rs) →
      (Gemini.goGen oracle sc cs chars T k i acc ps).result =
        .error Gemini.parseFailureMsg := by
  intro j
  induction j with
  | zero =>
    intro k i acc ps hlen hnone _
    have hi : i < T := by
      by_contra hc
      rw [batchRanges_stop (by omega)] at hlen
      simp at hlen
    have h0 := hnone (Gemini.promptFor sc cs T i acc)
    rw [Nat.add_zero] at h0
    rw [goGen_fail oracle sc cs chars T k i acc ps hi h0]
  | succ j ih =>
    intro k i acc ps hlen hnone hsome
    have hi : i < T := by
      by_contra hc
      rw [batchRanges_stop (by omega)] at hlen
      simp at hlen
    obtain ⟨rs, hrs⟩ := hsome 0 (by omega) (Gemini.promptFor sc cs T i acc)
    rw [Nat.add_zero] at hrs
    rw [goGen_step oracle sc cs chars T k i acc ps rs hi hrs]
    apply ih (k + 1) (i + Gemini.BATCH_SIZE)
    · rw [batchRanges_cons hi] at hlen
      simpa using hlen
    · intro p
      have h := hnone p
      rwa [show k + (j + 1) = k + 1 + j by omega] at h
    · intro d hd p
      have h := hsome (d + 1) (by omega) p
      rwa [show k + (d + 1) = k + 1 + d by omega] at h

/-- If every batch parses and every batch response has exactly the requested
size, the run succeeds and the accumulated ids extend to `1..T`. -/
theorem goGen_total_aux (oracle : Nat → String → Option (List Gemini.RawScene))
    (sc cs : String) (chars : List Gemini.Character) (T : Nat)
    (rss : Nat → List Gemini.RawScene)
    (ho : ∀ k p, oracle k p = some (rss k)) :
    ∀ (n k i : Nat) (acc : List Gemini.Scene) (ps : List String), T - i ≤ n →
      (∀ j r, (Gemini.batchRanges T i)[j]? = some r →
        (rss (k + j)).length = r.2 + 1 - r.1) →
      acc.map (fun x => x.id) = List.range' 1 (min i T) →
      ∃ scenes, (Gemini.goGen oracle sc cs chars T k i acc ps).result = .ok scenes ∧
        scenes.map (fun x => x.id) = List.range' 1 T ∧ scenes.length = T := by
  intro n
  induction n with
  | zero =>
    intro k i acc ps hn hlen hacc
    rw [goGen_stop oracle sc cs chars T k i acc ps (by omega)]
    refine ⟨acc, rfl, ?_, ?_⟩
    · rwa [min_eq_right (by omega)] at hacc
    · have hl : (acc.map (fun x => x.id)).length = (List.range' 1 T).length := by
        rw [hacc, min_eq_right (by omega)]
      simpa using hl
  | succ n ih =>
    intro k i acc ps hn hlen hacc
    by_cases hi : i < T
    · rw [goGen_step oracle sc cs chars T k i acc ps (rss k) hi (ho k _)]
      apply ih (k + 1) (i + Gemini.BATCH_SIZE)
      · simp only [Gemini.BATCH_SIZE]
        omega
      · intro j r hr
        have hg : (Gemini.batchRanges T i)[j + 1]? = some r := by
          rw [batchRanges_cons hi]
          simpa using hr
        have h' := hlen (j + 1) r hg
        rwa [show k + (j + 1) = k + 1 + j by omega] at h'
      · have hg0 : (Gemini.batchRanges T i)[0]? =
            some (i + 1, min (i + Gemini.BATCH_SIZE) T) := by
          rw [batchRanges_cons hi]
          simp
        have hlen0 := hlen 0 (i + 1, min (i + Gemini.BATCH_SIZE) T) hg0
        rw [Nat.add_zero] at hlen0
        rw [List.map_append, hacc, mapBatchScenes_ids, hlen0]
        rw [min_eq_left (by omega)]
        show List.range' 1 i ++
            List.range' (i + 1) (min (i + Gemini.BATCH_SIZE) T + 1 - (i + 1)) =
          List.range' 1 (min (i + Gemini.BATCH_SIZE) T)
        rw [show min (i + Gemini.BATCH_SIZE) T + 1 - (i + 1) =
            min (i + Gemini.BATCH_SIZE) T - i by omega]
        rw [show i + 1 = 1 + 1 * i by omega, List.range'_append]
        congr 1
        have hB : Gemini.BATCH_SIZE = 20 := rfl
        omega
    · rw [goGen_stop oracle sc cs chars T k i acc ps (by omega)]
      refine ⟨acc, rfl, ?_, ?_⟩
      · rwa [min_eq_right (by omega)] at hacc
      · have hl : (acc.map (fun x => x.id)).length = (List.range' 1 T).length := by
          rw [hacc, min_eq_right (by omega)]
        simpa using hl

/-- `(s ++ t).data` is the concatenation of the two character lists. -/
theorem str_data_append (s t : String) : (s ++ t).data = s.data ++ t.data := rfl

/-- An infix of a string is an infix of any right-extension. -/
theorem sInfix_append_left (t s u : String) (h : t.data <:+: s.data) :
    t.data <:+: (s ++ u).data := by
  obtain ⟨a, b, hab⟩ := h
  exact ⟨a, b ++ u.data, by rw [str_data_append, ← hab]; simp⟩

/-- An infix of a string is an infix of any left-extension. -/
theorem sInfix_append_right (t s u : String) (h : t.data <:+: u.data) :
    t.data <:+: (s ++ u).data := by
  obtain ⟨a, b, hab⟩ := h
  exact ⟨s.data ++ a, b, by rw [str_data_append, ← hab]; simp⟩

/-- A string is an infix of itself. -/
theorem sInfix_refl (t : String) : t.data <:+: t.data := ⟨[], [], by simp⟩

/-- Counterexample to claim C4 as stated: the merged-result guarantee is not
unconditional — for T = 1 a service response carrying two units yields a
merged list of two entries (ids 1 and 2), not exactly T entries with ids
`1..T`; the code never checks the returned batch size. -/
theorem batch_miscount_counterexample :
    (Gemini.generateStoryboardScenes
        (fun _ _ => some [⟨"a", "", "", "", "", [], "", none⟩,
          ⟨"b", "", "", "", "", [], "", none⟩]) "" [] 1).result =
      .ok [⟨1, "a", "", "", "", "", [], ""⟩, ⟨2, "b", "", "", "", "", [], ""⟩] ∧
    ([(⟨1, "a", "", "", "", "", [], ""⟩ : Gemini.Scene),
        ⟨2, "b", "", "", "", "", [], ""⟩].map (fun x => x.id) ≠
      List.range' 1 1) := by
  constructor
  · rw [Gemini.generateStoryboardScenes,
      goGen_step _ _ _ _ _ _ _ _ _ _ (by omega) rfl,
      goGen_stop _ _ _ _ _ _ _ _ _ (by norm_num [Gemini.BATCH_SIZE])]
    rfl
  · decide

/-- Claim C4 (amended): for every `T ≥ 1` the batch loop produces ascending,
non-overlapping, gap-free ranges covering `[1, T]` (their flattening is
exactly `1..T`), each of size at most `BATCH_SIZE = 20` with the last
truncated; every returned unit's sequence id is unconditionally overwritten
with `startIndex + positionInBatch` regardless of any id the service echoes
back; and provided each batch response carries exactly the requested number
of units, the merged result has exactly `T` entries with ids `1..T` in
order, with no gaps or duplicates. -/
theorem batch_partition_correct :
    (∀ T : Nat, 1 ≤ T →
      (Gemini.batchRanges T 0).flatMap
          (fun r => List.range' r.1 (r.2 + 1 - r.1)) = List.range' 1 T ∧
      ∀ r ∈ Gemini.batchRanges T 0,
        r.1 ≤ r.2 ∧ r.2 + 1 - r.1 ≤ Gemini.BATCH_SIZE) ∧
    (∀ (chars : List Gemini.Character) (s : Nat) (rs : List Gemini.RawScene),
      (Gemini.mapBatchScenes chars s rs).map (fun x => x.id) =
        List.range' s rs.length) ∧
    (∀ (oracle : Nat → String → Option (List Gemini.RawScene)) (sc : String)
      (chars : List Gemini.Character) (T : Nat)
      (rss : Nat → List Gemini.RawScene), 1 ≤ T →
      (∀ k p, oracle k p = some (rss k)) →
      (∀ j r, (Gemini.batchRanges T 0)[j]? = some r →
        (rss j).length = r.2 + 1 - r.1) →
      ∃ scenes,
        (Gemini.generateStoryboardScenes oracle sc chars T).result = .ok scenes ∧
        scenes.map (fun x => x.id) = List.range' 1 T ∧ scenes.length = T) := by
  refine ⟨?_, ?_, ?_⟩
  · intro T hT
    constructor
    · have h := batchRanges_flatten T T 0 (by omega)
      simpa using h
    · intro r hr
      exact batchRanges_size T T 0 (by omega) r hr
  · exact mapBatchScenes_ids
  · intro oracle sc chars T rss hT ho hlen
    rw [Gemini.generateStoryboardScenes]
    apply goGen_total_aux oracle sc (Gemini.charSummary chars) chars T rss ho T 0 0 [] []
    · omega
    · intro j r hr
      have h := hlen j r hr
      rwa [Nat.zero_add]
    · simp

/-- Witness for `batch_partition_correct`: T = 45 with a service returning
exactly the requested batch sizes (20, 20, 5 all-empty units). -/
theorem batch_partition_correct_witness :
    ∃ scenes,
      (Gemini.generateStoryboardScenes
          (fun k _ => some (List.replicate (if k = 2 then 5 else 20)
            (⟨"", "", "", "", "", [], "", none⟩ : Gemini.RawScene))) "" []
          45).result = .ok scenes ∧
      scenes.map (fun x => x.id) = List.range' 1 45 ∧ scenes.length = 45 := by
  apply batch_partition_correct.2.2
    (fun k _ => some (List.replicate (if k = 2 then 5 else 20)
      (⟨"", "", "", "", "", [], "", none⟩ : Gemini.RawScene))) "" [] 45
    (fun k => List.replicate (if k = 2 then 5 else 20)
      (⟨"", "", "", "", "", [], "", none⟩ : Gemini.RawScene))
    (by omega) (fun k p => rfl)
  intro j r hr
  have h45 : Gemini.batchRanges 45 0 = [(1, 20), (21, 40), (41, 45)] := by
    rw [batchRanges_cons (by omega), batchRanges_cons (by norm_num [Gemini.BATCH_SIZE]),
      batchRanges_cons (by norm_num [Gemini.BATCH_SIZE]),
      batchRanges_stop (by norm_num [Gemini.BATCH_SIZE])]
    norm_num [Gemini.BATCH_SIZE]
  rw [h45] at hr
  match j, hr with
  | 0, hr => simp at hr; subst hr; simp
  | 1, hr => simp at hr; subst hr; simp
  | 2, hr => simp at hr; subst hr; simp
  | n + 3, hr => simp at hr

/-- Claim C7: if any batch's response fails to parse as the expected
structured shape (all earlier batches parsing), the whole sequential job
aborts with the user-facing parse-failure error — the `Except.error` result
carries no scenes, so no partial results reach the caller even though the
batches before the failing one had succeeded. -/
theorem parse_failure_aborts_job :
    ∀ (oracle : Nat → String → Option (List Gemini.RawScene)) (sc : String)
      (chars : List Gemini.Character) (T j : Nat),
      j < (Gemini.batchRanges T 0).length →
      (∀ p, oracle j p = none) →
      (∀ d, d < j → ∀ p, ∃ rs, oracle d p = some rs) →
      (Gemini.generateStoryboardScenes oracle sc chars T).result =
        .error Gemini.parseFailureMsg := by
  intro oracle sc chars T j hj hn hs
  rw [Gemini.generateStoryboardScenes]
  apply goGen_error_aux oracle sc (Gemini.charSummary chars) chars T j 0 0 [] [] hj
  · intro p
    simpa using hn p
  · intro d hd p
    simpa using hs d hd p

/-- Witness for `parse_failure_aborts_job`: a single-batch job whose only
batch fails to parse. -/
theorem parse_failure_aborts_job_witness :
    (Gemini.generateStoryboardScenes (fun _ _ => none) "" [] 1).result =
      .error Gemini.parseFailureMsg :=
  parse_failure_aborts_job (fun _ _ => none) "" [] 1 0
    (by rw [batchRanges_cons (by omega)]; simp)
    (fun _ => rfl) (fun d hd _ => absurd hd (by omega))

/-- The mapper preserves the number of units in a batch. -/
theorem mapBatchScenes_length (chars : List Gemini.Character) (s : Nat)
    (rs : List Gemini.RawScene) :
    (Gemini.mapBatchScenes chars s rs).length = rs.length := by
  unfold Gemini.mapBatchScenes
  exact List.length_mapIdx

/-- Claim C10: whenever the accumulated scene list is non-empty — i.e. for
every batch after the first — the prompt built for the next batch contains
the continuity preamble quoting the immediately preceding unit's assigned
sequence id (`(#id)`) and its summary text, together with the explicit
instruction to continue from it without skipping the story; in particular,
for T = 45 (B = 20), the second batch's prompt references unit 20's
result. -/
theorem continuity_context_references_previous :
    (∀ (sc cs : String) (T sId eId cbs sp ep : Nat) (acc : List Gemini.Scene)
      (last : Gemini.Scene), acc.getLast? = some last →
      ("(#" ++ toString last.id ++ ")").data <:+:
        (Gemini.buildPrompt sc cs T sId eId cbs sp ep
          (Gemini.contextPrompt sId acc)).data ∧
      last.description.data <:+:
        (Gemini.buildPrompt sc cs T sId eId cbs sp ep
          (Gemini.contextPrompt sId acc)).data ∧
      ("指示: シーン #" ++ toString sId).data <:+:
        (Gemini.buildPrompt sc cs T sId eId cbs sp ep
          (Gemini.contextPrompt sId acc)).data ∧
      "物語を飛ばさないでください。".data <:+:
        (Gemini.buildPrompt sc cs T sId eId cbs sp ep
          (Gemini.contextPrompt sId acc)).data) ∧
    (∀ (oracle : Nat → String → Option (List Gemini.RawScene)) (sc : String)
      (chars : List Gemini.Character) (rss : Nat → List Gemini.RawScene),
      (∀ k p, oracle k p = some (rss k)) →
      (rss 0).length = 20 →
      ∃ p2 last,
        (Gemini.generateStoryboardScenes oracle sc chars 45).prompts[1]? =
          some p2 ∧
        (Gemini.mapBatchScenes chars 1 (rss 0)).getLast? = some last ∧
        last.id = 20 ∧
        "(#20)".data <:+: p2.data ∧
        last.description.data <:+: p2.data ∧
        "指示: シーン #21".data <:+: p2.data ∧
        "物語を飛ばさないでください。".data <:+: p2.data) := by
  have hgen : ∀ (sc cs : String) (T sId eId cbs sp ep : Nat)
      (acc : List Gemini.Scene) (last : Gemini.Scene),
      acc.getLast? = some last →
      ("(#" ++ toString last.id ++ ")").data <:+:
        (Gemini.buildPrompt sc cs T sId eId cbs sp ep
          (Gemini.contextPrompt sId acc)).data ∧
      last.description.data <:+:
        (Gemini.buildPrompt sc cs T sId eId cbs sp ep
          (Gemini.contextPrompt sId acc)).data ∧
      ("指示: シーン #" ++ toString sId).data <:+:
        (Gemini.buildPrompt sc cs T sId eId cbs sp ep
          (Gemini.contextPrompt sId acc)).data ∧
      "物語を飛ばさないでください。".data <:+:
        (Gemini.buildPrompt sc cs T sId eId cbs sp ep
          (Gemini.contextPrompt sId acc)).data := by
    intro sc cs T sId eId cbs sp ep acc last hlast
    unfold Gemini.buildPrompt
    refine ⟨?_, ?_, ?_, ?_⟩
    · apply sInfix_append_left
      apply sInfix_append_left
      apply sInfix_append_left
      apply sInfix_append_left
      apply sInfix_append_left
      apply sInfix_append_right
      simp only [Gemini.contextPrompt, hlast]
      apply sInfix_append_left
      apply sInfix_append_left
      apply sInfix_append_left
      apply sInfix_append_left
      apply sInfix_append_left
      apply sInfix_append_left
      apply sInfix_append_left
      apply sInfix_append_right
      exact sInfix_refl _
    · apply sInfix_append_left
      apply sInfix_append_left
      apply sInfix_append_left
      apply sInfix_append_left
      apply sInfix_append_left
      apply sInfix_append_right
      simp only [Gemini.contextPrompt, hlast]
      apply sInfix_append_left
      apply sInfix_append_left
      apply sInfix_append_left
      apply sInfix_append_left
      apply sInfix_append_left
      apply sInfix_append_right
      exact sInfix_refl _
    · apply sInfix_append_left
      apply sInfix_append_left
      apply sInfix_append_left
      apply sInfix_append_left
      apply sInfix_append_left
      apply sInfix_append_right
      simp only [Gemini.contextPrompt, hlast]
      apply sInfix_append_left
      apply sInfix_append_left
      apply sInfix_append_left
      apply sInfix_append_right
      exact sInfix_refl _
    · apply sInfix_append_left
      apply sInfix_append_left
      apply sInfix_append_left
      apply sInfix_append_left
      apply sInfix_append_left
      apply sInfix_append_right
      simp only [Gemini.contextPrompt, hlast]
      apply sInfix_append_left
      apply sInfix_append_right
      exact sInfix_refl _
  refine ⟨hgen, ?_⟩
  intro oracle sc chars rss ho hlen20
  have hlen1 : (Gemini.mapBatchScenes chars 1 (rss 0)).length = 20 := by
    rw [mapBatchScenes_length, hlen20]
  cases hl : (Gemini.mapBatchScenes chars 1 (rss 0)).getLast? with
  | none =>
    have := List.getLast?_eq_none_iff.mp hl
    rw [this] at hlen1
    simp at hlen1
  | some last =>
    have hid : last.id = 20 := by
      have hmap := mapBatchScenes_ids chars 1 (rss 0)
      rw [hlen20] at hmap
      have h1 : ((Gemini.mapBatchScenes chars 1 (rss 0)).map
          (fun x => x.id)).getLast? = some last.id := by
        rw [List.getLast?_map, hl]
        rfl
      rw [hmap] at h1
      have h2 : (List.range' 1 20).getLast? = some 20 := by decide
      rw [h2] at h1
      exact (Option.some_inj.mp h1).symm
    refine ⟨Gemini.promptFor sc (Gemini.charSummary chars) 45 20
        (Gemini.mapBatchScenes chars 1 (rss 0)), last, ?_, rfl, hid, ?_, ?_, ?_, ?_⟩
    · rw [Gemini.generateStoryboardScenes,
        goGen_step _ _ _ _ _ _ _ _ _ (rss 0) (by omega) (ho 0 _),
        goGen_step _ _ _ _ _ _ _ _ _ (rss 1)
          (by norm_num [Gemini.BATCH_SIZE]) (ho 1 _),
        goGen_step _ _ _ _ _ _ _ _ _ (rss 2)
          (by norm_num [Gemini.BATCH_SIZE]) (ho 2 _),
        goGen_stop _ _ _ _ _ _ _ _ _ (by norm_num [Gemini.BATCH_SIZE])]
      simp [Gemini.BATCH_SIZE]
    · have h := (hgen sc (Gemini.charSummary chars) 45 (20 + 1) (min (20 + 20) 45)
        (min (20 + 20) 45 - (20 + 1) + 1) (Gemini.jsRound (20 * 100) 45)
        (Gemini.jsRound (min (20 + 20) 45 * 100) 45)
        (Gemini.mapBatchScenes chars 1 (rss 0)) last hl).1
      rw [hid] at h
      exact h
    · exact (hgen sc (Gemini.charSummary chars) 45 (20 + 1) (min (20 + 20) 45)
        (min (20 + 20) 45 - (20 + 1) + 1) (Gemini.jsRound (20 * 100) 45)
        (Gemini.jsRound (min (20 + 20) 45 * 100) 45)
        (Gemini.mapBatchScenes chars 1 (rss 0)) last hl).2.1
    · exact (hgen sc (Gemini.charSummary chars) 45 (20 + 1) (min (20 + 20) 45)
        (min (20 + 20) 45 - (20 + 1) + 1) (Gemini.jsRound (20 * 100) 45)
        (Gemini.jsRound (min (20 + 20) 45 * 100) 45)
        (Gemini.mapBatchScenes chars 1 (rss 0)) last hl).2.2.1
    · exact (hgen sc (Gemini.charSummary chars) 45 (20 + 1) (min (20 + 20) 45)
        (min (20 + 20) 45 - (20 + 1) + 1) (Gemini.jsRound (20 * 100) 45)
        (Gemini.jsRound (min (20 + 20) 45 * 100) 45)
        (Gemini.mapBatchScenes chars 1 (rss 0)) last hl).2.2.2

/-- Witness for `continuity_context_references_previous`: a concrete run
with T = 45 whose batches all return exactly 20 (resp. 5) empty units. -/
theorem continuity_context_witness :
    ∃ p2 last,
      (Gemini.generateStoryboardScenes
          (fun k _ => some (List.replicate (if k = 2 then 5 else 20)
            (⟨"d", "", "", "", "", [], "", none⟩ : Gemini.RawScene))) "" []
          45).prompts[1]? = some p2 ∧
      (Gemini.mapBatchScenes [] 1 (List.replicate 20
        (⟨"d", "", "", "", "", [], "", none⟩ : Gemini.RawScene))).getLast? =
        some last ∧
      last.id = 20 ∧
      "(#20)".data <:+: p2.data ∧
      last.description.data <:+: p2.data ∧
      "指示: シーン #21".data <:+: p2.data ∧
      "物語を飛ばさないでください。".data <:+: p2.data :=
  continuity_context_references_previous.2
    (fun k _ => some (List.replicate (if k = 2 then 5 else 20)
      (⟨"d", "", "", "", "", [], "", none⟩ : Gemini.RawScene))) "" []
    (fun k => List.replicate (if k = 2 then 5 else 20)
      (⟨"d", "", "", "", "", [], "", none⟩ : Gemini.RawScene))
    (fun _ _ => rfl) (by simp)

/-- Invariant of two interleaved atomic `deduct_tokens` debits of 5 from
balance 5: the balance stays in every reachable configuration at 5 (none
committed) or 0 (one committed), and at most one of the two programs ever
reports success. -/
theorem runSched_atomic_inv (sched : List Bool) :
    ∀ (bal : Int) (p q : Conc.DebitProg),
      ((bal = 5 ∧ p = Conc.deductTokensProg 5 ∧ q = Conc.deductTokensProg 5) ∨
       (bal = 0 ∧ p = .done (.ok 0) ∧ q = Conc.deductTokensProg 5) ∨
       (bal = 0 ∧ p = Conc.deductTokensProg 5 ∧ q = .done (.ok 0)) ∨
       (bal = 0 ∧ p = .done (.ok 0) ∧ q = .done (.error "Insufficient tokens")) ∨
       (bal = 0 ∧ p = .done (.error "Insufficient tokens") ∧ q = .done (.ok 0))) →
      ((Conc.runSched sched bal p q).1 = 5 ∧
        (Conc.runSched sched bal p q).2.1 = Conc.deductTokensProg 5 ∧
        (Conc.runSched sched bal p q).2.2 = Conc.deductTokensProg 5) ∨
      ((Conc.runSched sched bal p q).1 = 0 ∧
        (Conc.runSched sched bal p q).2.1 = .done (.ok 0) ∧
        (Conc.runSched sched bal p q).2.2 = Conc.deductTokensProg 5) ∨
      ((Conc.runSched sched bal p q).1 = 0 ∧
        (Conc.runSched sched bal p q).2.1 = Conc.deductTokensProg 5 ∧
        (Conc.runSched sched bal p q).2.2 = .done (.ok 0)) ∨
      ((Conc.runSched sched bal p q).1 = 0 ∧
        (Conc.runSched sched bal p q).2.1 = .done (.ok 0) ∧
        (Conc.runSched sched bal p q).2.2 = .done (.error "Insufficient tokens")) ∨
      ((Conc.runSched sched bal p q).1 = 0 ∧
        (Conc.runSched sched bal p q).2.1 = .done (.error "Insufficient tokens") ∧
        (Conc.runSched sched bal p q).2.2 = .done (.ok 0)) := by
  induction sched with
  | nil =>
    intro bal p q h
    simpa [Conc.runSched] using h
  | cons b rest ih =>
    intro bal p q h
    rcases h with ⟨h1, h2, h3⟩ | ⟨h1, h2, h3⟩ | ⟨h1, h2, h3⟩ | ⟨h1, h2, h3⟩ | ⟨h1, h2, h3⟩ <;>
      (subst h1; subst h2; subst h3) <;> cases b <;>
      simp only [Conc.runSched, Conc.step, Conc.deductTokensProg] <;>
      norm_num <;>
      first
      | exact ih 5 _ _ (Or.inl ⟨rfl, rfl, rfl⟩)
      | exact ih 0 _ _ (Or.inr (Or.inl ⟨rfl, rfl, rfl⟩))
      | exact ih 0 _ _ (Or.inr (Or.inr (Or.inl ⟨rfl, rfl, rfl⟩)))
      | exact ih 0 _ _ (Or.inr (Or.inr (Or.inr (Or.inl ⟨rfl, rfl, rfl⟩))))
      | exact ih 0 _ _ (Or.inr (Or.inr (Or.inr (Or.inr ⟨rfl, rfl, rfl⟩))))

/-- Counterexample to claim C8 as stated: the `consumeTokens` debit of
`database.ts` is a read followed by an unconditional write, so under the
interleaving read-A, read-B, write-A, write-B two debits of 5 from balance 5
both succeed (10 tokens debited from a balance of 5), an outcome the atomic
storage-layer conditional decrement forbids: under the same schedule the
atomic debits commit exactly once. -/
theorem consumeTokens_read_write_counterexample :
    Conc.succeeded (Conc.runSched [true, false, true, false] 5
        (Conc.consumeTokensProg 5) (Conc.consumeTokensProg 5)).2.1 = true ∧
    Conc.succeeded (Conc.runSched [true, false, true, false] 5
        (Conc.consumeTokensProg 5) (Conc.consumeTokensProg 5)).2.2 = true ∧
    (Conc.runSched [true, false, true, false] 5
        (Conc.consumeTokensProg 5) (Conc.consumeTokensProg 5)).1 = 0 ∧
    Conc.succeeded (Conc.runSched [true, false, true, false] 5
        (Conc.deductTokensProg 5) (Conc.deductTokensProg 5)).2.1 = true ∧
    Conc.succeeded (Conc.runSched [true, false, true, false] 5
        (Conc.deductTokensProg 5) (Conc.deductTokensProg 5)).2.2 = false :=
  ⟨rfl, rfl, rfl, rfl, rfl⟩

/-- Claim C8 (amended): the `deduct_tokens` RPC used by
`deductTokensForImage` debits through a single storage-layer conditional
decrement, under which two interleaved debits of 5 from balance 5 can never
both succeed and the balance stays non-negative under every schedule; but
the `consumeTokens` debit of `database.ts` instead reads the balance and
writes the computed value unconditionally, and an interleaving of two such
debits lets both succeed from a balance that covers only one. -/
theorem debit_storage_atomicity :
    (∀ sched : List Bool,
      ¬(Conc.succeeded (Conc.runSched sched 5 (Conc.deductTokensProg 5)
            (Conc.deductTokensProg 5)).2.1 = true ∧
        Conc.succeeded (Conc.runSched sched 5 (Conc.deductTokensProg 5)
            (Conc.deductTokensProg 5)).2.2 = true) ∧
      0 ≤ (Conc.runSched sched 5 (Conc.deductTokensProg 5)
          (Conc.deductTokensProg 5)).1) ∧
    (Conc.succeeded (Conc.runSched [true, false, true, false] 5
        (Conc.consumeTokensProg 5) (Conc.consumeTokensProg 5)).2.1 = true ∧
      Conc.succeeded (Conc.runSched [true, false, true, false] 5
        (Conc.consumeTokensProg 5) (Conc.consumeTokensProg 5)).2.2 = true) := by
  constructor
  · intro sched
    have hinv := runSched_atomic_inv sched 5 (Conc.deductTokensProg 5)
      (Conc.deductTokensProg 5) (Or.inl ⟨rfl, rfl, rfl⟩)
    constructor
    · intro hcontra
      rcases hinv with ⟨h1, h2, h3⟩ | ⟨h1, h2, h3⟩ | ⟨h1, h2, h3⟩ | ⟨h1, h2, h3⟩ |
          ⟨h1, h2, h3⟩ <;>
        (rw [h2, h3] at hcontra;
          simp [Conc.succeeded, Conc.deductTokensProg] at hcontra)
    · rcases hinv with ⟨h1, _, _⟩ | ⟨h1, _, _⟩ | ⟨h1, _, _⟩ | ⟨h1, _, _⟩ | ⟨h1, _, _⟩ <;>
        (rw [h1]; try norm_num)
  · exact ⟨rfl, rfl⟩

/-- Witness for `debit_storage_atomicity` at the schedule that runs the
first atomic debit to completion and then the second. -/
theorem debit_storage_atomicity_witness :
    ¬(Conc.succeeded (Conc.runSched [true, false] 5 (Conc.deductTokensProg 5)
          (Conc.deductTokensProg 5)).2.1 = true ∧
      Conc.succeeded (Conc.runSched [true, false] 5 (Conc.deductTokensProg 5)
          (Conc.deductTokensProg 5)).2.2 = true) ∧
    0 ≤ (Conc.runSched [true, false] 5 (Conc.deductTokensProg 5)
        (Conc.deductTokensProg 5)).1 :=
  debit_storage_atomicity.1 [true, false]

/-- Unfolding of `callWithRetry` when the current invocation succeeds. -/
theorem callWithRetry_ok {α : Type} (fn : Nat → Except Gemini.GenError α) (a : α)
    (retries delay idx : Nat) (hf : fn idx = .ok a) :
    Gemini.callWithRetry fn retries delay idx = ⟨.ok a, 1, []⟩ := by
  cases retries with
  | zero => simp [Gemini.callWithRetry, hf]
  | succ r => simp [Gemini.callWithRetry, hf]

/-- Unfolding of `callWithRetry` on a retryable error with budget left. -/
theorem callWithRetry_retry {α : Type} (fn : Nat → Except Gemini.GenError α)
    (e : Gemini.GenError) (r delay idx : Nat) (hf : fn idx = .error e)
    (hr : Gemini.isRetryable e = true) :
    Gemini.callWithRetry fn (r + 1) delay idx =
      ⟨(Gemini.callWithRetry fn r (delay * 2) (idx + 1)).result,
        (Gemini.callWithRetry fn r (delay * 2) (idx + 1)).calls + 1,
        delay :: (Gemini.callWithRetry fn r (delay * 2) (idx + 1)).delays⟩ := by
  simp [Gemini.callWithRetry, hf, hr]

/-- Unfolding of `callWithRetry` on a non-retryable error. -/
theorem callWithRetry_fatal {α : Type} (fn : Nat → Except Gemini.GenError α)
    (e : Gemini.GenError) (retries delay idx : Nat) (hf : fn idx = .error e)
    (hr : Gemini.isRetryable e = false) :
    Gemini.callWithRetry fn retries delay idx = ⟨.error e, 1, []⟩ := by
  cases retries with
  | zero => simp [Gemini.callWithRetry, hf]
  | succ r => simp [Gemini.callWithRetry, hf, hr]

/-- Claim C5: with the default budget (`retries = 5`, `delay = 3000`), an
operation that fails with a retryable error on its first four invocations
and succeeds on the fifth has its success returned after exactly 5
invocations, with backoff delays 3000, 6000, 12000, 24000 ms (starting at
3 s and doubling per attempt); an operation failing with a non-retryable
error is invoked exactly once and the error propagates unchanged. -/
theorem callWithRetry_budget :
    (∀ (α : Type) (fn : Nat → Except Gemini.GenError α) (a : α)
      (e : Nat → Gemini.GenError),
      (∀ i, i < 4 → fn i = .error (e i) ∧ Gemini.isRetryable (e i) = true) →
      fn 4 = .ok a →
      Gemini.callWithRetry fn 5 3000 0 =
        ⟨.ok a, 5, [3000, 6000, 12000, 24000]⟩) ∧
    (∀ (α : Type) (fn : Nat → Except Gemini.GenError α) (e : Gemini.GenError),
      fn 0 = .error e → Gemini.isRetryable e = false →
      Gemini.callWithRetry fn 5 3000 0 = ⟨.error e, 1, []⟩) := by
  constructor
  · intro α fn a e hfail hok
    rw [callWithRetry_retry fn (e 0) 4 3000 0 (hfail 0 (by omega)).1 (hfail 0 (by omega)).2,
      callWithRetry_retry fn (e 1) 3 6000 1 (hfail 1 (by omega)).1 (hfail 1 (by omega)).2,
      callWithRetry_retry fn (e 2) 2 12000 2 (hfail 2 (by omega)).1 (hfail 2 (by omega)).2,
      callWithRetry_retry fn (e 3) 1 24000 3 (hfail 3 (by omega)).1 (hfail 3 (by omega)).2,
      callWithRetry_ok fn a 1 48000 4 hok]
  · intro α fn e hf hr
    exact callWithRetry_fatal fn e 5 3000 0 hf hr

/-- Witness for `callWithRetry_budget`: a concrete operation that returns an
HTTP 503 error four times and then 7, and one that always fails with a
non-retryable HTTP 400 error. -/
theorem callWithRetry_budget_witness :
    Gemini.callWithRetry
        (fun i => if i < 4 then .error ⟨some (.num 503), none, none, none, "x"⟩
          else .ok (7 : Nat)) 5 3000 0 =
      ⟨.ok 7, 5, [3000, 6000, 12000, 24000]⟩ ∧
    Gemini.callWithRetry
        (fun _ => (.error ⟨some (.num 400), none, none, none, "bad request"⟩ :
          Except Gemini.GenError Nat)) 5 3000 0 =
      ⟨.error ⟨some (.num 400), none, none, none, "bad request"⟩, 1, []⟩ :=
  ⟨callWithRetry_budget.1 Nat _ 7 (fun _ => ⟨some (.num 503), none, none, none, "x"⟩)
      (by intro i hi; interval_cases i <;> exact ⟨rfl, by decide⟩) rfl,
    callWithRetry_budget.2 Nat _ ⟨some (.num 400), none, none, none, "bad request"⟩
      rfl (by decide)⟩

/-- Counterexample to claim C9 as stated: when the storage-level
`deduct_tokens` debit commits (returning balances 10 → 5) but the subsequent
`token_transactions` insert fails, `deductTokensForImage` swallows the
logging failure and still reports a successful debit — a committed balance
mutation with no audit record. -/
theorem ledger_missing_record_counterexample :
    (ImageGen.deductTokensForImage (.ok [((10 : Int), (5 : Int))]) false 5).1.success =
      true ∧
    (ImageGen.deductTokensForImage (.ok [((10 : Int), (5 : Int))]) false 5).2 = [] := by
  exact ⟨rfl, rfl⟩

/-- Claim C9 (amended): each committed balance mutation creates at most one
`token_transactions` record, and exactly one when the ledger insert itself
succeeds — a successful `consumeTokens` debit inserts exactly one
`consumption` row, a failed one inserts none, a committed `deduct_tokens`
debit with a successful insert logs exactly one `image_generation` row, a
failed RPC logs none, and a processed refund inserts exactly one `refund`
row; but when the audit insert fails after the storage debit committed, the
mutation stands with no record (the logging failure is swallowed). -/
theorem ledger_record_per_mutation :
    (∀ balance amount : Int, amount ≤ balance →
      (Database.consumeTokens balance amount).txs =
        [⟨-amount, "consumption", balance, balance - amount⟩]) ∧
    (∀ balance amount : Int, balance < amount →
      (Database.consumeTokens balance amount).txs = []) ∧
    (∀ (b a cost : Int) (rows : List (Int × Int)),
      (ImageGen.deductTokensForImage (.ok ((b, a) :: rows)) true cost).1.success =
        true ∧
      (ImageGen.deductTokensForImage (.ok ((b, a) :: rows)) true cost).2 =
        [⟨-cost, "image_generation", b, a⟩]) ∧
    (∀ (msg : String) (insertOk : Bool) (cost : Int),
      (ImageGen.deductTokensForImage (.error msg) insertOk cost).2 = []) ∧
    (∀ (amt : Nat) (bal : Option Int) (r : Webhook.RefundOutcome),
      Webhook.handleRefund amt bal = some r →
      r.tx = ⟨r.tokensToRefund, "refund", r.balanceBefore, r.newBalance⟩) := by
  refine ⟨?_, ?_, ?_, ?_, ?_⟩
  · intro balance amount h
    have h' : ¬(balance - amount < 0) := by omega
    simp [Database.consumeTokens, h']
  · intro balance amount h
    have h' : balance - amount < 0 := by omega
    simp [Database.consumeTokens, h']
  · intro b a cost rows
    exact ⟨rfl, rfl⟩
  · intro msg insertOk cost
    rfl
  · intro amt bal r hr
    unfold Webhook.handleRefund at hr
    split at hr
    · exact absurd hr (by simp)
    · rw [Option.some_inj] at hr
      subst hr
      rfl

/-- Witness for `ledger_record_per_mutation`: a successful debit of 5 from
12, a failed debit of 5 from 2, and the refund of 200000 at balance 9500. -/
theorem ledger_record_per_mutation_witness :
    (Database.consumeTokens 12 5).txs = [⟨-5, "consumption", 12, 12 - 5⟩] ∧
    (Database.consumeTokens 2 5).txs = [] ∧
    Webhook.RefundOutcome.tx ⟨2000, 9500, 11500, ⟨2000, "refund", 9500, 11500⟩⟩ =
      ⟨2000, "refund", 9500, 11500⟩ :=
  ⟨ledger_record_per_mutation.1 12 5 (by decide),
    ledger_record_per_mutation.2.1 2 5 (by decide),
    ledger_record_per_mutation.2.2.2.2 200000 (some 9500)
      ⟨2000, 9500, 11500, ⟨2000, "refund", 9500, 11500⟩⟩ (by decide)⟩

/-- Witness for `balance_bounds_after_credit`: the `pro_standard` top-up at
balance 9500 and the refund of 200000 at balance 9500. -/
theorem balance_bounds_after_credit_witness :
    ((Webhook.handlePaymentSucceeded ⟨none, some 1000⟩
        ⟨some 9500, some "pro_standard"⟩).finalBalance ≤
      (Webhook.handlePaymentSucceeded ⟨none, some 1000⟩
        ⟨some 9500, some "pro_standard"⟩).maxBalance) ∧
    (0 ≤ (AuthCtx.upgradeToPlan "pro_standard" 0).finalTotal ∧
      (AuthCtx.upgradeToPlan "pro_standard" 0).finalTotal ≤ 10000) ∧
    (Webhook.RefundOutcome.newBalance ⟨2000, 9500, 11500, ⟨2000, "refund", 9500, 11500⟩⟩ =
      9500 + 2000) :=
  ⟨(balance_bounds_after_credit.1 ⟨none, some 1000⟩ ⟨some 9500, some "pro_standard"⟩ _
      rfl).1,
    (balance_bounds_after_credit.2.1 0 (by decide)).1,
    (balance_bounds_after_credit.2.2 200000 (some 9500)
        ⟨2000, 9500, 11500, ⟨2000, "refund", 9500, 11500⟩⟩ (by decide)).1⟩
